import Mathlib

/-
Verification of the analytics query layer of the wealth-360 dashboard.

The repository's analytics functions are SQL CASE/aggregation expressions
issued through one shared primitive, `run_query`, which executes a SQL
statement and returns a pandas DataFrame (empty on backend error).  This
development shallowly embeds those functions: tabular results become lists
of typed rows, SQL NULL becomes `Option`, SQL three-valued comparisons
become `Bool` helpers that treat NULL operands as false, and numeric
columns become `ℚ` (warehouse arithmetic here is exact decimal, not
floating point).
-/

namespace Wealth360

/-- A single cell of a query result: SQL NULL, a number, or a text value. -/
inductive Cell where
  | null : Cell
  | num : ℚ → Cell
  | str : String → Cell
deriving DecidableEq, Repr

/-- A tabular query result: column names plus rows of cells
(the shape `run_query` hands back to the analytics functions). -/
structure DataFrame where
  cols : List String
  rows : List (List Cell)
deriving DecidableEq, Repr

/-- The empty DataFrame, `pd.DataFrame()` in the source. -/
def DataFrame.emptyDf : DataFrame := ⟨[], []⟩

/-- `df.empty` in pandas: no rows. -/
def DataFrame.isEmpty (df : DataFrame) : Bool := df.rows.isEmpty

/-- `df.loc[0, col]`: the cell of the first row under column `col`
(callers in the source always guard with non-emptiness and column
membership first). -/
def DataFrame.loc0 (df : DataFrame) (col : String) : Cell :=
  match df.rows with
  | [] => Cell.null
  | r :: _ =>
    match (df.cols.zip r).find? (fun p => p.1 == col) with
    | some p => p.2
    | none => Cell.null

/-- The warehouse backend: executing a SQL text either yields rows or
raises; modelled as `Except` so that an exception is an explicit value. -/
def Backend : Type := String → Except String DataFrame

/-- `run_query` from `streamlit_app.py` / `utils/data_functions.py`:
execute the statement; on any backend exception log and return an empty
DataFrame instead of re-raising. -/
def run_query (backend : Backend) (sql : String) : DataFrame :=
  match backend sql with
  | Except.ok df => df
  | Except.error _ => DataFrame.emptyDf

/-- Claim C1 (confirmed): for every SQL statement, `run_query` either
returns the backend's rows, or — when the backend raises — a well-typed
empty result; being a total Lean function of the backend's `Except`
outcome, it never propagates the exception to its caller. -/
theorem run_query_never_raises (backend : Backend) (sql : String) :
    (∃ df, backend sql = Except.ok df ∧ run_query backend sql = df) ∨
    (∃ e, backend sql = Except.error e ∧
      run_query backend sql = DataFrame.emptyDf) := by
  cases h : backend sql with
  | ok df => exact Or.inl ⟨df, rfl, by simp [run_query, h]⟩
  | error e => exact Or.inr ⟨e, rfl, by simp [run_query, h]⟩

/-! ## KPI Aggregator (`get_global_kpis`) -/

/-- Truncation toward zero, the behaviour of Python `int()` on a number. -/
def truncQ (q : ℚ) : Int :=
  if 0 ≤ q then Int.floor q else Int.ceil q

/-- Numeric reading of a cell, as Python `float()`/`int()` coercion does on
the numeric columns these queries return (`null`/text never reach the
coercion because the source guards with `pd.notna` / non-emptiness). -/
def cellToRat : Cell → ℚ
  | Cell.null => 0
  | Cell.num q => q
  | Cell.str _ => 0

/-- The count extraction of `get_global_kpis`:
`int(df.loc[0, "CNT"]) if not df.empty and "CNT" in df.columns else 0`. -/
def countFromDf (df : DataFrame) : Int :=
  if df.isEmpty = false ∧ "CNT" ∈ df.cols then truncQ (cellToRat (df.loc0 "CNT"))
  else 0

/-- The AUM extraction of `get_global_kpis`:
`float(df.loc[0, "AUM"]) if not df.empty and "AUM" in df.columns else 0.0`. -/
def aumFromDf (df : DataFrame) : ℚ :=
  if df.isEmpty = false ∧ "AUM" ∈ df.cols then cellToRat (df.loc0 "AUM")
  else 0

/-- The YTD extraction of `get_global_kpis`: the value is kept only when the
frame is non-empty, the column exists and the cell is not NA; otherwise the
function reports `None`. -/
def ytdFromDf (df : DataFrame) : Option ℚ :=
  if df.isEmpty = false ∧ "YTD_GROWTH_PCT" ∈ df.cols ∧
      df.loc0 "YTD_GROWTH_PCT" ≠ Cell.null
  then some (cellToRat (df.loc0 "YTD_GROWTH_PCT"))
  else none

/-- The mapping returned by `get_global_kpis`. -/
structure Kpis where
  num_clients : Int
  num_advisors : Int
  aum : ℚ
  ytd_growth_pct : Option ℚ
deriving DecidableEq, Repr

/-- `get_global_kpis`, as a function of the four query results it reads. -/
def get_global_kpis (clientsDf advisorsDf aumDf ytdDf : DataFrame) : Kpis :=
  { num_clients := countFromDf clientsDf
    num_advisors := countFromDf advisorsDf
    aum := aumFromDf aumDf
    ytd_growth_pct := ytdFromDf ytdDf }

/-- Opaque statement key for the clients count query of `get_global_kpis`. -/
def clientsSql : String := "SELECT COUNT(DISTINCT CLIENT_ID) AS CNT FROM CLIENTS"

/-- Opaque statement key for the advisors count query of `get_global_kpis`. -/
def advisorsSql : String := "SELECT COUNT(DISTINCT ADVISOR_ID) AS CNT FROM ADVISORS"

/-- Opaque statement key for the AUM query of `get_global_kpis` (sums the
latest-snapshot non-CASH market values). -/
def aumSql : String := "AUM over latest snapshots excluding the CASH ticker"

/-- Opaque statement key for the YTD-growth query of `get_global_kpis`. -/
def ytdSql : String := "YTD growth via ASOF joins at start of year and today"

/-- `get_global_kpis` end to end: each query goes through `run_query`. -/
def get_global_kpis_run (backend : Backend) : Kpis :=
  get_global_kpis (run_query backend clientsSql) (run_query backend advisorsSql)
    (run_query backend aumSql) (run_query backend ytdSql)

/-! ### Semantics of the YTD-growth SQL

`POSITION_HISTORY` rows carry `(portfolio_id, ticker, timestamp,
market_value)`; the query groups non-CASH rows per `(portfolio, timestamp)`,
ASOF-joins each portfolio to its most recent grouped value at or before the
reference date, sums across portfolios (SQL `SUM` skipping the NULLs of
unmatched portfolios), and divides through `NULLIF(·, 0)`. -/

/-- One `POSITION_HISTORY` row. -/
structure PosRow where
  pid : Nat
  ticker : String
  ts : Nat
  value : ℚ
deriving DecidableEq, Repr

/-- The tables the YTD query reads: `PORTFOLIOS` and `POSITION_HISTORY`. -/
structure Db where
  portfolios : List Nat
  positions : List PosRow
deriving Repr

/-- `daily_portfolio_value` CTE: total non-CASH market value of a portfolio
at one snapshot timestamp. -/
def dailyValue (db : Db) (pid ts : Nat) : ℚ :=
  ((db.positions.filter
      (fun r => r.pid == pid && r.ticker != "CASH" && r.ts == ts)).map
    (fun r => r.value)).sum

/-- ASOF match: the most recent snapshot timestamp of a portfolio at or
before the reference time `T`, among its non-CASH rows. -/
def asofTs (db : Db) (pid T : Nat) : Option Nat :=
  ((db.positions.filter
      (fun r => r.pid == pid && r.ticker != "CASH" && decide (r.ts ≤ T))).map
    (fun r => r.ts)).max?

/-- As-of portfolio value at time `T`: NULL when the portfolio has no
non-CASH snapshot at or before `T`. -/
def asofValue (db : Db) (pid T : Nat) : Option ℚ :=
  (asofTs db pid T).map (fun t => dailyValue db pid t)

/-- `V(T)`: the as-of values summed across portfolios; SQL `SUM` skips NULL
inputs and is itself NULL when every input is NULL. -/
def V (db : Db) (T : Nat) : Option ℚ :=
  let vals := db.portfolios.filterMap (fun pid => asofValue db pid T)
  if vals.isEmpty then none else some vals.sum

/-- `NULLIF(x, 0)`: NULL when the argument is zero (or already NULL). -/
def nullifZero : Option ℚ → Option ℚ
  | none => none
  | some v => if v = 0 then none else some v

/-- The single row-and-column result of the YTD SQL statement: NULL as soon
as either as-of total is NULL or the start-of-year total is zero, else the
growth ratio; no row at all when `PORTFOLIOS` is empty. -/
def ytdQueryDf (db : Db) (startOfYear today : Nat) : DataFrame :=
  if db.portfolios.isEmpty then DataFrame.emptyDf
  else
    ⟨["YTD_GROWTH_PCT"],
      [[match V db today, nullifZero (V db startOfYear) with
        | some l, some s => Cell.num ((l - s) / s)
        | _, _ => Cell.null]]⟩

/-- The `ytd_growth_pct` value `get_global_kpis` computes over a database:
the SQL result fed through the Python extraction. -/
def ytdGrowthPct (db : Db) (startOfYear today : Nat) : Option ℚ :=
  ytdFromDf (ytdQueryDf db startOfYear today)

/-- Worked instance: two portfolios, non-CASH as-of totals 100 at the start
of year (time 100) and 110 today (time 200), plus a CASH row that must be
ignored. -/
def exDb : Db :=
  { portfolios := [1, 2]
    positions :=
      [⟨1, "AAPL", 50, 60⟩, ⟨1, "AAPL", 150, 70⟩, ⟨1, "CASH", 150, 999⟩,
       ⟨2, "MSFT", 90, 40⟩, ⟨2, "MSFT", 190, 40⟩] }

/-- Claim C2 (confirmed): `get_global_kpis` computes `ytd_growth_pct` as
`(V(today) - V(start_of_year)) / V(start_of_year)` where `V(t)` sums the
per-portfolio most recent non-CASH snapshot values at or before `t`; the
result is `none` (never an exception, NaN or infinity) whenever
`V(start_of_year)` is NULL or zero, and the worked instance
`V(start) = 100`, `V(today) = 110` yields `1/10`. -/
theorem ytd_growth_spec :
    (∀ (db : Db) (s t : Nat) (vs vl : ℚ), V db s = some vs → vs ≠ 0 →
        V db t = some vl → ytdGrowthPct db s t = some ((vl - vs) / vs))
    ∧ (∀ (db : Db) (s t : Nat), V db s = none ∨ V db s = some 0 →
        ytdGrowthPct db s t = none)
    ∧ (∀ a b c d : DataFrame,
        (get_global_kpis a b c d).ytd_growth_pct = ytdFromDf d)
    ∧ (V exDb 100 = some 100 ∧ V exDb 200 = some 110 ∧
        ytdGrowthPct exDb 100 200 = some (1 / 10)) := by
  refine ⟨?_, ?_, fun _ _ _ _ => rfl, ?_, ?_, ?_⟩
  · intro db s t vs vl hs hvs ht
    have hport : db.portfolios.isEmpty = false := by
      cases hp : db.portfolios.isEmpty
      · rfl
      · exfalso
        have hnil : db.portfolios = [] := by simpa using hp
        simp [V, hnil] at hs
    simp [ytdGrowthPct, ytdQueryDf, hport, ht, hs, nullifZero, hvs, ytdFromDf,
      DataFrame.isEmpty, DataFrame.loc0, cellToRat]
  · intro db s t hs
    by_cases hp : db.portfolios.isEmpty
    · simp [ytdGrowthPct, ytdQueryDf, hp, ytdFromDf, DataFrame.emptyDf,
        DataFrame.isEmpty]
    · have hnz : nullifZero (V db s) = none := by
        rcases hs with h | h <;> simp [nullifZero, h]
      cases ht : V db t <;>
        simp [ytdGrowthPct, ytdQueryDf, hp, ht, hnz, ytdFromDf,
          DataFrame.isEmpty, DataFrame.loc0]
  · simp [V, asofValue, asofTs, dailyValue, exDb]
    norm_num
  · simp [V, asofValue, asofTs, dailyValue, exDb]
    norm_num
  · simp [ytdGrowthPct, ytdQueryDf, ytdFromDf, V, asofValue, asofTs, dailyValue,
      exDb, nullifZero, DataFrame.isEmpty, DataFrame.loc0, cellToRat]
    norm_num
    exact fun h => Cell.noConfusion h

/-- Witness for the C2 theorem: its hypotheses hold at the worked database
and the conclusion evaluates there. -/
theorem ytd_growth_spec_witness :
    ytdGrowthPct exDb 100 200 = some ((110 - 100) / 100) :=
  ytd_growth_spec.1 exDb 100 200 100 110
    (by simp [V, asofValue, asofTs, dailyValue, exDb]; norm_num)
    (by norm_num)
    (by simp [V, asofValue, asofTs, dailyValue, exDb]; norm_num)

/-- Claim C9 (confirmed): when every underlying query comes back empty (for
example because the backend fails for every statement), `get_global_kpis`
still returns all four keys, with zero counts, zero AUM and a null YTD
growth, without raising. -/
theorem global_kpis_empty_queries (backend : Backend)
    (h : ∀ s, run_query backend s = DataFrame.emptyDf) :
    get_global_kpis_run backend =
      { num_clients := 0, num_advisors := 0, aum := 0, ytd_growth_pct := none } := by
  unfold get_global_kpis_run
  rw [h, h, h, h]
  rfl

/-- Witness for the C9 theorem: a backend that raises on every statement
satisfies the hypothesis, and the KPIs degrade to their defaults. -/
theorem global_kpis_empty_queries_witness :
    get_global_kpis_run (fun _ => Except.error "connection failure") =
      { num_clients := 0, num_advisors := 0, aum := 0, ytd_growth_pct := none } :=
  global_kpis_empty_queries _ (fun _ => rfl)

/-! ## Risk & Suitability Engine (`get_suitability_mismatches`,
`get_suitability_risk_alerts`) -/

/-- One row of the client-portfolio join read by
`get_suitability_mismatches`. -/
structure ClientPortfolioRow where
  client_id : Nat
  risk_tolerance : String
  strategy_type : String
deriving DecidableEq, Repr

/-- The fixed compatibility matrix `allowed` of
`get_suitability_mismatches` in `streamlit_app.py`: each recognized risk
tolerance maps to its set of suitable strategies; `none` for an
unrecognized tolerance. -/
def allowed (risk : String) : Option (List String) :=
  if risk = "Conservative" then some ["Conservative", "Balanced"]
  else if risk = "Moderate" then some ["Balanced", "Moderate", "Growth"]
  else if risk = "Balanced" then some ["Balanced", "Moderate", "Growth"]
  else if risk = "Growth" then some ["Growth", "Aggressive Growth"]
  else if risk = "Aggressive Growth" then some ["Aggressive Growth"]
  else none

/-- `is_mismatch` from `get_suitability_mismatches`: a risk tolerance that
is not a key of the matrix yields `false` (fail open); otherwise flag when
the strategy is outside the suitable set. -/
def is_mismatch (risk strat : String) : Bool :=
  match allowed risk with
  | none => false
  | some l => !(l.contains strat)

/-- `get_suitability_mismatches`: keep exactly the rows whose
`(risk_tolerance, strategy_type)` pair is a mismatch (the empty-frame early
return also returns the empty list). -/
def get_suitability_mismatches (df : List ClientPortfolioRow) :
    List ClientPortfolioRow :=
  df.filter (fun r => is_mismatch r.risk_tolerance r.strategy_type)

/-- The `ALIGNMENT_STATUS` CASE expression of `get_suitability_risk_alerts`
in `utils/data_functions.py`. -/
def alignment_status (risk strat : String) : String :=
  if risk = "Conservative" ∧ strat ∉ ["Conservative", "Balanced"] then
    "Too Aggressive"
  else if risk = "Aggressive Growth" ∧ strat ∈ ["Conservative", "Balanced"] then
    "Too Conservative"
  else if risk = "Moderate" ∧ strat = "Aggressive Growth" then "Too Aggressive"
  else if risk = "Growth" ∧ strat = "Conservative" then "Too Conservative"
  else "Aligned"

/-- Claim C3 (confirmed): a pair is in the `get_suitability_mismatches`
output iff its risk tolerance is a key of the compatibility matrix and its
strategy lies outside that tolerance's suitable set; a Conservative client
holding an Aggressive Growth portfolio is always flagged (and the SQL
variant labels it Too Aggressive), a Conservative client holding a
Conservative portfolio is never flagged, and an unrecognized risk tolerance
never produces a flag in either variant. -/
theorem suitability_mismatch_iff :
    (∀ (df : List ClientPortfolioRow) (r : ClientPortfolioRow),
        r ∈ get_suitability_mismatches df ↔
          r ∈ df ∧ ∃ l, allowed r.risk_tolerance = some l ∧
            r.strategy_type ∉ l)
    ∧ is_mismatch "Conservative" "Aggressive Growth" = true
    ∧ alignment_status "Conservative" "Aggressive Growth" = "Too Aggressive"
    ∧ is_mismatch "Conservative" "Conservative" = false
    ∧ alignment_status "Conservative" "Conservative" = "Aligned"
    ∧ (∀ risk strat, allowed risk = none → is_mismatch risk strat = false)
    ∧ (∀ risk strat,
        risk ∉ ["Conservative", "Aggressive Growth", "Moderate", "Growth"] →
        alignment_status risk strat = "Aligned") := by
  refine ⟨?_, by decide, by decide, by decide, by decide, ?_, ?_⟩
  · intro df r
    unfold get_suitability_mismatches
    rw [List.mem_filter]
    constructor
    · rintro ⟨hmem, hmis⟩
      refine ⟨hmem, ?_⟩
      unfold is_mismatch at hmis
      cases hall : allowed r.risk_tolerance with
      | none => rw [hall] at hmis; exact absurd hmis (by simp)
      | some l =>
        rw [hall] at hmis
        refine ⟨l, rfl, ?_⟩
        simpa using hmis
    · rintro ⟨hmem, l, hall, hnot⟩
      refine ⟨hmem, ?_⟩
      unfold is_mismatch
      rw [hall]
      simpa using hnot
  · intro risk strat hnone
    unfold is_mismatch
    rw [hnone]
  · intro risk strat hrisk
    unfold alignment_status
    have h1 : ¬ risk = "Conservative" := by
      intro h; exact hrisk (by simp [h])
    have h2 : ¬ risk = "Aggressive Growth" := by
      intro h; exact hrisk (by simp [h])
    have h3 : ¬ risk = "Moderate" := by
      intro h; exact hrisk (by simp [h])
    have h4 : ¬ risk = "Growth" := by
      intro h; exact hrisk (by simp [h])
    simp [h1, h2, h3, h4]

/-- Witness for the C3 theorem: the membership characterization and fail-open
clauses evaluated at a concrete table holding one Conservative client with an
Aggressive Growth portfolio and one client with an unrecognized tolerance. -/
theorem suitability_mismatch_iff_witness :
    (⟨7, "Conservative", "Aggressive Growth"⟩ : ClientPortfolioRow) ∈
      get_suitability_mismatches
        [⟨7, "Conservative", "Aggressive Growth"⟩, ⟨8, "Speculative", "Growth"⟩]
    ∧ is_mismatch "Speculative" "Growth" = false := by
  constructor
  · exact (suitability_mismatch_iff.1 _ _).mpr
      ⟨by simp, ["Conservative", "Balanced"], by decide, by decide⟩
  · exact suitability_mismatch_iff.2.2.2.2.2.1 "Speculative" "Growth" (by decide)

/-! ## Churn Engine (`get_churn_early_warning`, `streamlit_app.py`)

The query sums non-CASH balances over the last 30 days (recent) and days
31-90 (prior) per client, counts interactions over the same windows, keeps
clients with positive prior balance, and classifies with a top-down CASE.
The interaction counts come from a LEFT JOIN, so they can be NULL; SQL
comparisons against NULL are false. -/

/-- SQL `<` under three-valued logic: false when either side is NULL. -/
def sqlLtO (a b : Option ℚ) : Bool :=
  match a, b with
  | some x, some y => decide (x < y)
  | _, _ => false

/-- The `CHURN_RISK` CASE expression of `get_churn_early_warning`:
High iff recent balance below 80% of prior AND recent interactions below
50% of prior; else Medium iff recent balance below 90% of prior OR recent
interactions below 70% of prior; else Low. -/
def churn_risk (recentBal priorBal : ℚ) (recentInt priorInt : Option ℚ) :
    String :=
  if recentBal < priorBal * 0.8 ∧
      sqlLtO recentInt (priorInt.map (fun x => x * 0.5)) then "High Risk"
  else if recentBal < priorBal * 0.9 ∨
      sqlLtO recentInt (priorInt.map (fun x => x * 0.7)) then "Medium Risk"
  else "Low Risk"

/-- Output membership of `get_churn_early_warning`: the WHERE keeps only
positive prior balances and the HAVING keeps only High/Medium rows. -/
def churn_included (recentBal priorBal : ℚ) (recentInt priorInt : Option ℚ) :
    Bool :=
  decide (priorBal > 0) &&
    (churn_risk recentBal priorBal recentInt priorInt == "High Risk" ||
      churn_risk recentBal priorBal recentInt priorInt == "Medium Risk")

/-- Modelled from the claim and spec section 4.8 wording, for comparison
with `churn_risk`: High iff recent balance below 50% of prior AND recent
interactions below 50% of prior; else Medium iff balance below 90% or
interactions below 70%; else Low. -/
def claim_churn_risk (recentBal priorBal recentInt priorInt : ℚ) : String :=
  if recentBal < priorBal * 0.5 ∧ recentInt < priorInt * 0.5 then "High"
  else if recentBal < priorBal * 0.9 ∨ recentInt < priorInt * 0.7 then "Medium"
  else "Low"

/-- Counterexample to claim C4: at recent balance 60% of prior with recent
interactions 30% of prior, the code classifies High (its balance threshold
is 80%), while the claimed rule (balance below 50% required for High) says
Medium. -/
theorem churn_high_threshold_counterexample :
    churn_risk 60 100 (some 3) (some 10) = "High Risk"
    ∧ claim_churn_risk 60 100 3 10 = "Medium"
    ∧ ¬((60 : ℚ) < 100 * 0.5) := by
  refine ⟨?_, ?_, by norm_num⟩
  · norm_num [churn_risk, sqlLtO]
  · norm_num [claim_churn_risk]

/-- Claim C4 as amended (corrected): the High rule requires recent balance
below 80% of prior (not 50%) together with recent interactions below 50% of
prior; the Medium rule and the exclusion of zero-prior-balance clients are
as claimed, and the claim's two instances (40%/30% is High; 95%/100% is
Low and excluded from the output) hold. -/
theorem churn_classification_amended :
    (∀ rb pb ri pi : ℚ,
        (churn_risk rb pb (some ri) (some pi) = "High Risk" ↔
          rb < pb * 0.8 ∧ ri < pi * 0.5)
      ∧ (churn_risk rb pb (some ri) (some pi) = "Medium Risk" ↔
          ¬(rb < pb * 0.8 ∧ ri < pi * 0.5) ∧
            (rb < pb * 0.9 ∨ ri < pi * 0.7)))
    ∧ (∀ (rb : ℚ) (ri pi : Option ℚ), churn_included rb 0 ri pi = false)
    ∧ churn_risk 40 100 (some 3) (some 10) = "High Risk"
    ∧ churn_risk 95 100 (some 10) (some 10) = "Low Risk"
    ∧ churn_included 95 100 (some 10) (some 10) = false := by
  have hcr : ∀ rb pb ri pi : ℚ,
      churn_risk rb pb (some ri) (some pi) =
        if rb < pb * 0.8 ∧ ri < pi * 0.5 then "High Risk"
        else if rb < pb * 0.9 ∨ ri < pi * 0.7 then "Medium Risk"
        else "Low Risk" := by
    intro rb pb ri pi
    simp [churn_risk, sqlLtO]
  refine ⟨?_, ?_, ?_, ?_, ?_⟩
  · intro rb pb ri pi
    rw [hcr]
    constructor
    · split_ifs <;> simp_all
    · split_ifs <;> simp_all
  · intro rb ri pi
    simp [churn_included]
  · norm_num [churn_risk, sqlLtO]
  · norm_num [churn_risk, sqlLtO]
  · have h : churn_risk 95 100 (some 10) (some 10) = "Low Risk" := by
      norm_num [churn_risk, sqlLtO]
    simp [churn_included, h]

/-- Witness for the amended C4 theorem: its characterizations evaluated at
the claim's first instance (recent balance 40, prior 100, interactions 3
against 10). -/
theorem churn_classification_amended_witness :
    churn_risk 40 100 (some 3) (some 10) = "High Risk" ↔
      (40 : ℚ) < 100 * 0.8 ∧ (3 : ℚ) < 10 * 0.5 :=
  (churn_classification_amended.1 40 100 3 10).1

/-! ## Cash-Sweep Engine (`get_idle_cash_analysis`) -/

/-- `CASH_BALANCE / NULLIF(TOTAL_PORTFOLIO_VALUE, 0)`: the cash fraction of
a portfolio, NULL when the total is zero. -/
def cashFracN (cash total : ℚ) : Option ℚ :=
  if total = 0 then none else some (cash / total)

/-- SQL `>` against a possibly-NULL left operand: false on NULL. -/
def sqlGtON (x : Option ℚ) (c : ℚ) : Bool :=
  match x with
  | some v => decide (v > c)
  | none => false

/-- The `CASH_STATUS` CASE ladder of `get_idle_cash_analysis` in
`streamlit_app.py`: strictly above 15% High, then 10%, then 5%, else Low. -/
def cash_status (cash total : ℚ) : String :=
  if sqlGtON (cashFracN cash total) 0.15 then "High Cash (>15%)"
  else if sqlGtON (cashFracN cash total) 0.10 then "Moderate Cash (10-15%)"
  else if sqlGtON (cashFracN cash total) 0.05 then "Normal Cash (5-10%)"
  else "Low Cash (<5%)"

/-- The `SWEEP_PRIORITY` CASE ladder of `get_idle_cash_analysis` in
`utils/data_functions.py` (raw division; its callers filter to positive
cash, so the total is nonzero there). -/
def sweep_priority (cash total : ℚ) : String :=
  if cash > 100000 ∧ cash / total > 0.15 then "High Priority"
  else if cash > 50000 ∧ cash / total > 0.10 then "Medium Priority"
  else if cash > 25000 ∧ cash / total > 0.05 then "Low Priority"
  else "Acceptable"

/-- Counterexample to claim C5: a portfolio with cash 150000 of a total
1000000 sits exactly at 15%; both ladders test strictly above 15%, so the
code classifies it Moderate/Medium, not the claimed High. -/
theorem cash_sweep_boundary_counterexample :
    cash_status 150000 1000000 = "Moderate Cash (10-15%)"
    ∧ cash_status 150000 1000000 ≠ "High Cash (>15%)"
    ∧ sweep_priority 150000 1000000 = "Medium Priority"
    ∧ sweep_priority 150000 1000000 ≠ "High Priority" := by
  have h1 : cash_status 150000 1000000 = "Moderate Cash (10-15%)" := by
    norm_num [cash_status, cashFracN, sqlGtON]
  have h2 : sweep_priority 150000 1000000 = "Medium Priority" := by
    norm_num [sweep_priority]
  exact ⟨h1, by simp [h1], h2, by simp [h2]⟩

/-- Claim C5 as amended (corrected): the ladder is strict at every band
(above 15% High, above 10% Moderate, above 5% Normal, else Low), so cash of
exactly 15% of total classifies Moderate Cash / Medium Priority, while any
fraction strictly above 15% (with cash above 100000 for the priority
ladder) classifies High. -/
theorem cash_sweep_ladder_amended :
    (∀ cash total : ℚ, 0 < total →
        (cash / total > 0.15 → cash_status cash total = "High Cash (>15%)")
      ∧ (cash / total ≤ 0.15 → cash / total > 0.10 →
          cash_status cash total = "Moderate Cash (10-15%)")
      ∧ (cash / total ≤ 0.10 → cash / total > 0.05 →
          cash_status cash total = "Normal Cash (5-10%)")
      ∧ (cash / total ≤ 0.05 → cash_status cash total = "Low Cash (<5%)"))
    ∧ cash_status 150000 1000000 = "Moderate Cash (10-15%)"
    ∧ cash_status 150001 1000000 = "High Cash (>15%)"
    ∧ sweep_priority 150000 1000000 = "Medium Priority"
    ∧ sweep_priority 150001 1000000 = "High Priority" := by
  refine ⟨?_, ?_, ?_, ?_, ?_⟩
  · intro cash total ht
    have hne : total ≠ 0 := ne_of_gt ht
    refine ⟨?_, ?_, ?_, ?_⟩
    · intro h
      simp [cash_status, cashFracN, hne, sqlGtON, h]
    · intro h15 h10
      have h15n : ¬(cash / total > 0.15) := not_lt.mpr h15
      simp [cash_status, cashFracN, hne, sqlGtON, h15n, h10]
    · intro h10 h5
      have h10n : ¬(cash / total > 0.10) := not_lt.mpr h10
      have h15n : ¬(cash / total > 0.15) := by
        intro h; exact h10n (lt_trans (by norm_num) h)
      simp [cash_status, cashFracN, hne, sqlGtON, h15n, h10n, h5]
    · intro h5
      have h5n : ¬(cash / total > 0.05) := not_lt.mpr h5
      have h10n : ¬(cash / total > 0.10) := by
        intro h; exact h5n (lt_trans (by norm_num) h)
      have h15n : ¬(cash / total > 0.15) := by
        intro h; exact h5n (lt_trans (by norm_num) h)
      simp [cash_status, cashFracN, hne, sqlGtON, h15n, h10n, h5n]
  · norm_num [cash_status, cashFracN, sqlGtON]
  · norm_num [cash_status, cashFracN, sqlGtON]
  · norm_num [sweep_priority]
  · norm_num [sweep_priority]

/-- Witness for the amended C5 theorem: at cash 150001 of 1000000 the
fraction is strictly above 15% and the ladder yields High. -/
theorem cash_sweep_ladder_amended_witness :
    cash_status 150001 1000000 = "High Cash (>15%)" :=
  (cash_sweep_ladder_amended.1 150001 1000000 (by norm_num)).1 (by norm_num)

/-! ## Anomaly Engine (`get_trade_fee_anomalies`) -/

/-- Per-transaction-type statistics from the `transaction_stats` CTE; the
LEFT JOIN makes every field possibly NULL (for example `STDDEV` over a
single row). -/
structure TxStats where
  avg_amount : Option ℚ
  stddev_amount : Option ℚ
  p95_amount : Option ℚ
deriving DecidableEq, Repr

/-- SQL `>` against a possibly-NULL right operand: false on NULL. -/
def sqlGtRO (a : ℚ) (b : Option ℚ) : Bool :=
  match b with
  | some y => decide (a > y)
  | none => false

/-- The `ANOMALY_TYPE` CASE expression of `get_trade_fee_anomalies`,
evaluated top-down, first match wins. -/
def anomaly_type (st : TxStats) (ttype : String) (amount qty price : ℚ) :
    String :=
  if sqlGtRO amount (st.p95_amount.map (fun p => p * 2)) then
    "Unusually Large Transaction"
  else if sqlGtRO amount
      (match st.avg_amount, st.stddev_amount with
        | some a, some s => some (a + 3 * s)
        | _, _ => none) then "Statistical Outlier - High Value"
  else if price = 0 ∧ amount > 0 then "Zero Price with Value"
  else if qty = 0 ∧ amount > 0 then "Zero Quantity with Value"
  else if amount > 1000000 ∧ ttype = "Buy" then "Large Buy Transaction"
  else if |amount - qty * price| > amount * 0.05 then "Price-Quantity Mismatch"
  else "Normal"

/-- Counterexample to claim C6: a transaction with quantity 0 and amount
5000 whose type has a 95th percentile of 1000 hits the earlier
`amount > 2 * p95` branch, so its label is not Zero Quantity with Value —
the label does depend on the type's statistics. -/
theorem zero_quantity_label_counterexample :
    anomaly_type ⟨some 100, some 10, some 1000⟩ "Sell" 5000 0 10 =
      "Unusually Large Transaction"
    ∧ anomaly_type ⟨some 100, some 10, some 1000⟩ "Sell" 5000 0 10 ≠
      "Zero Quantity with Value" := by
  have h : anomaly_type ⟨some 100, some 10, some 1000⟩ "Sell" 5000 0 10 =
      "Unusually Large Transaction" := by
    norm_num [anomaly_type, sqlGtRO]
  exact ⟨h, by simp [h]⟩

/-- Claim C6 as amended (corrected): a transaction with quantity 0 and
positive amount is always flagged as an anomaly (its label is never
Normal, so it always appears in the output), and it is labelled Zero
Quantity with Value exactly when none of the three earlier CASE branches
(twice the 95th percentile, mean plus three standard deviations, zero
price) matches first. -/
theorem zero_quantity_flag_amended (st : TxStats) (ttype : String)
    (amount qty price : ℚ) (hq : qty = 0) (ha : 0 < amount) :
    anomaly_type st ttype amount qty price ≠ "Normal"
    ∧ (sqlGtRO amount (st.p95_amount.map (fun p => p * 2)) = false →
        sqlGtRO amount
          (match st.avg_amount, st.stddev_amount with
            | some a, some s => some (a + 3 * s)
            | _, _ => none) = false →
        price ≠ 0 →
        anomaly_type st ttype amount qty price = "Zero Quantity with Value") := by
  constructor
  · unfold anomaly_type
    split_ifs <;> simp_all
  · intro hc1 hc2 hp
    simp [anomaly_type, hc1, hc2, hp, hq, ha]

/-- Witness for the amended C6 theorem: with no statistics for the type and
a nonzero price, a zero-quantity transaction of amount 5000 gets exactly
the Zero Quantity with Value label. -/
theorem zero_quantity_flag_amended_witness :
    anomaly_type ⟨none, none, none⟩ "Sell" 5000 0 10 =
      "Zero Quantity with Value" :=
  (zero_quantity_flag_amended ⟨none, none, none⟩ "Sell" 5000 0 10 rfl
    (by norm_num)).2 rfl rfl (by norm_num)

/-! ## Drift Engine (`get_portfolio_drift_analysis`, `utils/data_functions.py`)

The query groups a portfolio's latest snapshot by asset class (the CASH
ticker included, so cash sits in both a class's value and the total),
computes `CURRENT_PCT = ROUND(value / total * 100, 2)`,
`DRIFT_PCT = ABS(CURRENT_PCT - TARGET_PCT)` against the fixed target
table, keeps rows with `DRIFT_PCT > 3`, and bands the drift level. -/

/-- Snowflake `ROUND(x, 2)`: half away from zero at two decimals. -/
def round2 (x : ℚ) : ℚ :=
  if 0 ≤ x then ((⌊x * 100 + 1 / 2⌋ : ℤ) : ℚ) / 100
  else -(((⌊-(x * 100) + 1 / 2⌋ : ℤ) : ℚ) / 100)

/-- The fixed `target_allocations` table: percentages per
`(strategy_type, asset_class)`, `none` for pairs outside the table. -/
def targetAlloc (strategy asset : String) : Option ℚ :=
  if strategy = "Conservative" ∧ asset = "Equities" then some 30
  else if strategy = "Conservative" ∧ asset = "Fixed Income" then some 60
  else if strategy = "Conservative" ∧ asset = "Cash" then some 10
  else if strategy = "Balanced" ∧ asset = "Equities" then some 50
  else if strategy = "Balanced" ∧ asset = "Fixed Income" then some 40
  else if strategy = "Balanced" ∧ asset = "Cash" then some 10
  else if strategy = "Growth" ∧ asset = "Equities" then some 70
  else if strategy = "Growth" ∧ asset = "Fixed Income" then some 25
  else if strategy = "Growth" ∧ asset = "Cash" then some 5
  else if strategy = "Aggressive Growth" ∧ asset = "Equities" then some 85
  else if strategy = "Aggressive Growth" ∧ asset = "Fixed Income" then some 10
  else if strategy = "Aggressive Growth" ∧ asset = "Cash" then some 5
  else none

/-- `TOTAL_PORTFOLIO_VALUE`: the window sum over the whole portfolio of the
per-class latest-snapshot values (cash included). -/
def totalValue (ps : List (String × ℚ)) : ℚ :=
  (ps.map (fun p => p.2)).sum

/-- The `DRIFT_LEVEL` CASE ladder: above 10 High, above 5 Medium, else Low. -/
def drift_level (d : ℚ) : String :=
  if d > 10 then "High" else if d > 5 then "Medium" else "Low"

/-- One output row of `get_portfolio_drift_analysis`. -/
structure DriftRow where
  asset_class : String
  current_pct : ℚ
  target_pct : ℚ
  drift_pct : ℚ
  drift_level : String
deriving DecidableEq, Repr

/-- The row a single `(asset_class, value)` group contributes, given the
portfolio total `T`: dropped when its class has no target for the strategy
(inner join) or when the drift is at most 3 (the WHERE filter). -/
def driftRowOf (s : String) (T : ℚ) (p : String × ℚ) : Option DriftRow :=
  match targetAlloc s p.1 with
  | none => none
  | some tp =>
    let cp := round2 (p.2 / T * 100)
    let d := |cp - tp|
    if d > 3 then some ⟨p.1, cp, tp, d, drift_level d⟩ else none

/-- `get_portfolio_drift_analysis` for one portfolio: its strategy and its
per-asset-class latest-snapshot values in, its drift rows out. -/
def driftRows (s : String) (ps : List (String × ℚ)) : List DriftRow :=
  ps.filterMap (driftRowOf s (totalValue ps))

/-- Rounding half away from zero overshoots by at most half a cent. -/
theorem round2_le {x : ℚ} (hx : 0 ≤ x) : round2 x ≤ x + 1 / 200 := by
  rw [round2, if_pos hx]
  have h := Int.floor_le (x * 100 + 1 / 2)
  have h100 : (0 : ℚ) < 100 := by norm_num
  rw [div_le_iff₀ h100]
  linarith

/-- Rounding a nonnegative value stays nonnegative. -/
theorem round2_nonneg {x : ℚ} (hx : 0 ≤ x) : 0 ≤ round2 x := by
  rw [round2, if_pos hx]
  have : (0 : ℤ) ≤ ⌊x * 100 + 1 / 2⌋ := by
    apply Int.le_floor.mpr
    push_cast
    linarith
  positivity

/-- Summing a projection over a `filterMap` output is bounded by summing a
dominating nonnegative weight over the input list. -/
theorem sum_map_filterMap_le {α β : Type} (f : α → Option β) (g : β → ℚ)
    (h : α → ℚ) :
    ∀ ps : List α, (∀ a ∈ ps, 0 ≤ h a) →
      (∀ a ∈ ps, ∀ b, f a = some b → g b ≤ h a) →
      ((ps.filterMap f).map g).sum ≤ (ps.map h).sum := by
  intro ps
  induction ps with
  | nil => intro _ _; simp
  | cons a t ih =>
    intro hnn hle
    have hnn' : ∀ x ∈ t, 0 ≤ h x := fun x hx => hnn x (List.mem_cons_of_mem a hx)
    have hle' : ∀ x ∈ t, ∀ b, f x = some b → g b ≤ h x :=
      fun x hx => hle x (List.mem_cons_of_mem a hx)
    cases hfa : f a with
    | none =>
      rw [List.filterMap_cons_none hfa, List.map_cons, List.sum_cons]
      have := ih hnn' hle'
      have ha := hnn a (List.mem_cons_self a t)
      linarith
    | some b =>
      rw [List.filterMap_cons_some hfa, List.map_cons, List.map_cons,
        List.sum_cons, List.sum_cons]
      have := ih hnn' hle'
      have ha := hle a (List.mem_cons_self a t) b hfa
      linarith

/-- Summing a pointwise-shifted weight adds the shift once per element. -/
theorem sum_map_add_const {α : Type} (h0 : α → ℚ) (c : ℚ) :
    ∀ ps : List α,
      (ps.map (fun a => h0 a + c)).sum = (ps.map h0).sum + ps.length * c := by
  intro ps
  induction ps with
  | nil => simp
  | cons a t ih =>
    simp only [List.map_cons, List.sum_cons, List.length_cons, ih]
    push_cast
    ring

/-- Summing the percentage weights factors through the total. -/
theorem sum_map_div_mul (T : ℚ) :
    ∀ ps : List (String × ℚ),
      (ps.map (fun p => p.2 / T * 100)).sum = (ps.map (fun p => p.2)).sum / T * 100 := by
  intro ps
  induction ps with
  | nil => simp
  | cons a t ih =>
    simp only [List.map_cons, List.sum_cons, ih]
    ring

/-- The portfolio of the C7 counterexample: a Conservative strategy whose
three class values make two of the rounded percentages round up. -/
def drift_example_positions : List (String × ℚ) :=
  [("Equities", 33335), ("Fixed Income", 33335), ("Cash", 33330)]

/-- Counterexample to claim C7: the reported `CURRENT_PCT` values are
rounded to two decimals half away from zero, and on this portfolio the
three output rows carry 33.34 + 33.34 + 33.33 = 100.01, strictly more than
100 — the claimed bound of at most 100 fails for the rounded column. -/
theorem drift_pct_sum_counterexample :
    ((driftRows "Conservative" drift_example_positions).map
        (fun r => r.current_pct)).sum = 10001 / 100
    ∧ (100 : ℚ) <
      ((driftRows "Conservative" drift_example_positions).map
          (fun r => r.current_pct)).sum := by
  have hT : totalValue drift_example_positions = 100000 := by
    norm_num [totalValue, drift_example_positions]
  have e1 : driftRowOf "Conservative" 100000 ("Equities", (33335 : ℚ)) =
      some ⟨"Equities", 3334 / 100, 30, 334 / 100, "Low"⟩ := by
    simp [driftRowOf, targetAlloc]
    norm_num [round2, drift_level, abs_of_nonneg]
  have e2 : driftRowOf "Conservative" 100000 ("Fixed Income", (33335 : ℚ)) =
      some ⟨"Fixed Income", 3334 / 100, 60, 2666 / 100, "High"⟩ := by
    simp [driftRowOf, targetAlloc]
    norm_num [round2, drift_level, abs_of_nonneg]
  have e3 : driftRowOf "Conservative" 100000 ("Cash", (33330 : ℚ)) =
      some ⟨"Cash", 3333 / 100, 10, 2333 / 100, "High"⟩ := by
    simp [driftRowOf, targetAlloc]
    norm_num [round2, drift_level, abs_of_nonneg]
  have h : ((driftRows "Conservative" drift_example_positions).map
      (fun r => r.current_pct)).sum = 10001 / 100 := by
    rw [driftRows, hT]
    rw [show drift_example_positions =
      ("Equities", (33335 : ℚ)) :: ("Fixed Income", (33335 : ℚ)) ::
        [("Cash", (33330 : ℚ))] from rfl]
    rw [List.filterMap_cons_some e1, List.filterMap_cons_some e2,
      List.filterMap_cons_some e3]
    norm_num
  exact ⟨h, by rw [h]; norm_num⟩

/-- Claim C7 as amended (corrected): each output row's `current_pct` is the
class's latest-snapshot value over the cash-inclusive portfolio total,
rounded to two decimals; with nonnegative class values the unrounded
percentages sum to at most 100, so the reported (rounded) `current_pct`
values sum to at most 100 plus half a cent (1/200) per asset class of the
portfolio. -/
theorem drift_pct_sum_amended (s : String) (ps : List (String × ℚ))
    (hnn : ∀ p ∈ ps, 0 ≤ p.2) (hT : 0 < totalValue ps) :
    ((driftRows s ps).map (fun r => r.current_pct)).sum ≤
      100 + ps.length * (1 / 200) := by
  have key := sum_map_filterMap_le (driftRowOf s (totalValue ps))
    (fun r => r.current_pct) (fun p => p.2 / totalValue ps * 100 + 1 / 200) ps
    (by
      intro p hp
      have h0 : 0 ≤ p.2 := hnn p hp
      have : 0 ≤ p.2 / totalValue ps * 100 := by positivity
      linarith)
    (by
      intro p hp b hb
      have h0 : 0 ≤ p.2 / totalValue ps * 100 := by
        have := hnn p hp
        positivity
      unfold driftRowOf at hb
      cases hta : targetAlloc s p.1 with
      | none => rw [hta] at hb; exact absurd hb (by simp)
      | some tp =>
        rw [hta] at hb
        simp only at hb
        split_ifs at hb with hd
        · have hbeq : b = ⟨p.1, round2 (p.2 / totalValue ps * 100), tp,
              |round2 (p.2 / totalValue ps * 100) - tp|,
              drift_level |round2 (p.2 / totalValue ps * 100) - tp|⟩ :=
            (Option.some.inj hb).symm
          rw [hbeq]
          exact round2_le h0)
  calc ((driftRows s ps).map (fun r => r.current_pct)).sum
      ≤ (ps.map (fun p => p.2 / totalValue ps * 100 + 1 / 200)).sum := key
    _ = (ps.map (fun p => p.2 / totalValue ps * 100)).sum +
          ps.length * (1 / 200) := sum_map_add_const _ _ ps
    _ = (ps.map (fun p => p.2)).sum / totalValue ps * 100 +
          ps.length * (1 / 200) := by rw [sum_map_div_mul]
    _ = 100 + ps.length * (1 / 200) := by
          rw [show (ps.map (fun p => p.2)).sum = totalValue ps from rfl,
            div_self (ne_of_gt hT)]
          ring

/-- Witness for the amended C7 theorem: on the counterexample portfolio the
bound evaluates to 100.015 and indeed dominates the rounded sum 100.01. -/
theorem drift_pct_sum_amended_witness :
    ((driftRows "Conservative" drift_example_positions).map
        (fun r => r.current_pct)).sum ≤
      100 + (drift_example_positions.length : ℚ) * (1 / 200) :=
  drift_pct_sum_amended "Conservative" drift_example_positions
    (by intro p hp; fin_cases hp <;> norm_num)
    (by norm_num [totalValue, drift_example_positions])

/-- Claim C10 (confirmed): every row of `get_portfolio_drift_analysis` has
`DRIFT_PCT` strictly greater than 3 (pairs drifting at most 3 points are
omitted by the WHERE filter), and a row is banded Low exactly when its
drift is at most 5 — so Low rows occur only for drift in (3, 5]. -/
theorem drift_output_gt_three (s : String) (ps : List (String × ℚ))
    (r : DriftRow) (hr : r ∈ driftRows s ps) :
    3 < r.drift_pct ∧ (r.drift_level = "Low" ↔ r.drift_pct ≤ 5) := by
  rw [driftRows, List.mem_filterMap] at hr
  obtain ⟨p, _, hp⟩ := hr
  unfold driftRowOf at hp
  cases hta : targetAlloc s p.1 with
  | none => rw [hta] at hp; exact absurd hp (by simp)
  | some tp =>
    rw [hta] at hp
    simp only at hp
    split_ifs at hp with hd
    have hreq : r = ⟨p.1, round2 (p.2 / totalValue ps * 100), tp,
        |round2 (p.2 / totalValue ps * 100) - tp|,
        drift_level |round2 (p.2 / totalValue ps * 100) - tp|⟩ :=
      (Option.some.inj hp).symm
    rw [hreq]
    refine ⟨hd, ?_⟩
    unfold drift_level
    split_ifs with h10 h5
    · constructor
      · intro h; exact absurd h (by simp)
      · intro h; linarith
    · constructor
      · intro h; exact absurd h (by simp)
      · intro h; linarith
    · simp only [true_iff]
      linarith [not_lt.mp h5]

/-- Witness for the C10 theorem: a concrete Low row of a Conservative
portfolio whose Equities drift is 4, inside the interval (3, 5]. -/
theorem drift_output_gt_three_witness :
    3 < (⟨"Equities", 34, 30, 4, "Low"⟩ : DriftRow).drift_pct
    ∧ ((⟨"Equities", 34, 30, 4, "Low"⟩ : DriftRow).drift_level = "Low" ↔
        (⟨"Equities", 34, 30, 4, "Low"⟩ : DriftRow).drift_pct ≤ 5) :=
  drift_output_gt_three "Conservative"
    [("Equities", 34), ("Fixed Income", 56), ("Cash", 10)]
    ⟨"Equities", 34, 30, 4, "Low"⟩
    (by
      simp [driftRows, driftRowOf, totalValue, targetAlloc, round2, drift_level]
      norm_num)

/-! ## Segmentation Engine (`get_customer_360_segments`, `streamlit_app.py`)

The segments query LEFT JOINs clients to their latest-snapshot non-CASH
totals, so `TOTAL_AUM` can be NULL; the CASE ladder then compares with
inclusive lower bounds. -/

/-- SQL `>=` against a possibly-NULL left operand: false on NULL. -/
def sqlGeON (x : Option ℚ) (c : ℚ) : Bool :=
  match x with
  | some v => decide (v ≥ c)
  | none => false

/-- The `WEALTH_SEGMENT` CASE ladder of `get_customer_360_segments` in
`streamlit_app.py`, evaluated top-down with inclusive thresholds. -/
def wealth_segment (total_aum : Option ℚ) : String :=
  if sqlGeON total_aum 10000000 then "Ultra High Net Worth (>$10M)"
  else if sqlGeON total_aum 5000000 then "High Net Worth ($5-10M)"
  else if sqlGeON total_aum 1000000 then "Affluent ($1-5M)"
  else if sqlGeON total_aum 250000 then "Mass Affluent ($250K-1M)"
  else "Emerging Wealth (<$250K)"

/-- Claim C8 (confirmed): the segmentation ladder assigns, top-down with
inclusive lower bounds, Ultra High Net Worth at or above ten million, High
Net Worth at or above five million, Affluent at or above one million, Mass
Affluent at or above 250 thousand, and the lowest tier below that; a value
exactly equal to a threshold (five or ten million) falls in the higher
tier. -/
theorem wealth_segment_ladder :
    (∀ v : ℚ,
        (10000000 ≤ v → wealth_segment (some v) = "Ultra High Net Worth (>$10M)")
      ∧ (5000000 ≤ v → v < 10000000 →
          wealth_segment (some v) = "High Net Worth ($5-10M)")
      ∧ (1000000 ≤ v → v < 5000000 →
          wealth_segment (some v) = "Affluent ($1-5M)")
      ∧ (250000 ≤ v → v < 1000000 →
          wealth_segment (some v) = "Mass Affluent ($250K-1M)")
      ∧ (v < 250000 → wealth_segment (some v) = "Emerging Wealth (<$250K)"))
    ∧ wealth_segment (some 5000000) = "High Net Worth ($5-10M)"
    ∧ wealth_segment (some 10000000) = "Ultra High Net Worth (>$10M)"
    ∧ wealth_segment (some 250000) = "Mass Affluent ($250K-1M)" := by
  refine ⟨?_, ?_, ?_, ?_⟩
  · intro v
    refine ⟨?_, ?_, ?_, ?_, ?_⟩
    · intro h10
      simp [wealth_segment, sqlGeON, h10]
    · intro h5 h10
      have h10n : ¬(10000000 ≤ v) := not_le.mpr h10
      simp [wealth_segment, sqlGeON, h10n, h5]
    · intro h1 h5
      have h5n : ¬(5000000 ≤ v) := not_le.mpr h5
      have h10n : ¬(10000000 ≤ v) := by intro h; exact h5n (by linarith)
      simp [wealth_segment, sqlGeON, h10n, h5n, h1]
    · intro h250 h1
      have h1n : ¬(1000000 ≤ v) := not_le.mpr h1
      have h5n : ¬(5000000 ≤ v) := by intro h; exact h1n (by linarith)
      have h10n : ¬(10000000 ≤ v) := by intro h; exact h1n (by linarith)
      simp [wealth_segment, sqlGeON, h10n, h5n, h1n, h250]
    · intro h250
      have h250n : ¬(250000 ≤ v) := not_le.mpr h250
      have h1n : ¬(1000000 ≤ v) := by intro h; exact h250n (by linarith)
      have h5n : ¬(5000000 ≤ v) := by intro h; exact h250n (by linarith)
      have h10n : ¬(10000000 ≤ v) := by intro h; exact h250n (by linarith)
      simp [wealth_segment, sqlGeON, h10n, h5n, h1n, h250n]
  · norm_num [wealth_segment, sqlGeON]
  · norm_num [wealth_segment, sqlGeON]
  · norm_num [wealth_segment, sqlGeON]

/-- Witness for the C8 theorem: the boundary case at exactly five million
applied through the quantified ladder clause. -/
theorem wealth_segment_ladder_witness :
    wealth_segment (some 5000000) = "High Net Worth ($5-10M)" :=
  (wealth_segment_ladder.1 5000000).2.1 (by norm_num) (by norm_num)

end Wealth360
